import Mathlib

/-!
Shallow embedding of `CalibratorModel.py` from the
`robust-model-for-adt-mini-greenhouse` repository: a gym-style episode
controller that fuses a physics simulator (the GreenLight model, reached
through MATLAB and `.mat` exchange files) with a neural-network predictor
over a historical spreadsheet dataset.

Numbers are modelled as rationals (the Python floats are used only for
arithmetic the claims treat exactly).  External collaborators — the
spreadsheet (`self.mgh_data`), the MATLAB/GreenLight simulator
(`DrlGlEnvironment` + `drl-env.mat`), the Keras per-row predictor and the
`ServiceFunctions` unit conversions (all outside `CalibratorModel.py`) —
are abstracted as fields of an `Env` record; `CalibratorModel` methods are
state-passing functions over `CalibState`.  Fallible paths (Python
`IndexError` / `TypeError` on bad action access) return `Except`.
-/

namespace Calibrator

/-- One row of the historical spreadsheet `self.mgh_data` (dataset7.xlsx),
with the columns `load_excel_data` reads. -/
structure Row where
  time : ℚ
  global_out : ℚ
  global_in : ℚ
  temp_in : ℚ
  temp_out : ℚ
  rh_in : ℚ
  rh_out : ℚ
  co2_in : ℚ
  co2_out : ℚ
  toplights : ℚ
  ventilation : ℚ
  heater : ℚ
deriving DecidableEq, Inhabited

/-- The arrays read back from `drl-env.mat` after a GreenLight run
(`predicted_inside_measurements_gl`); the code keeps the last 4 entries of
each. -/
structure GlBatch where
  time : List ℚ
  co2_in : List ℚ
  temp_in : List ℚ
  rh_in : List ℚ
  PAR_in : List ℚ
  fruit_leaf : List ℚ
  fruit_stem : List ℚ
  fruit_dw : List ℚ
  fruit_cbuf : List ℚ
  fruit_tcansum : List ℚ
deriving DecidableEq, Inhabited

/-- Everything `step` (or `__init__`) hands to the MATLAB GreenLight run:
the `controls.mat`, `indoor.mat` and `fruit.mat` contents plus the two
scalar script arguments. -/
structure GlInput where
  season_length_gl : ℚ
  first_day_gl : ℚ
  control_time : List ℚ
  control_ventilation : List ℚ
  control_toplights : List ℚ
  control_heater : List ℚ
  indoor_time : List ℚ
  indoor_temp : List ℚ
  indoor_rh : List ℚ
  indoor_co2 : List ℚ
  fruit_time : List ℚ
  fruit_leaf : List ℚ
  fruit_stem : List ℚ
  fruit_dw : List ℚ
  fruit_cbuf : List ℚ
  fruit_tcansum : List ℚ
deriving DecidableEq, Inhabited

/-- External collaborators of the controller, abstracted as functions:
row access into the spreadsheet, the GreenLight simulator, the per-row
Keras prediction for one target variable (Keras `predict` returns one
output per input row), and the three `ServiceFunctions` unit
conversions. -/
structure Env where
  dataset : Nat → Row
  glSim : GlInput → GlBatch
  nnGlobalIn : Row → ℚ
  nnTempIn : Row → ℚ
  nnRhIn : Row → ℚ
  nnCo2In : Row → ℚ
  co2ppm_to_dens : ℚ → ℚ → ℚ
  rh_to_vapor_density : ℚ → ℚ → ℚ
  vapor_density_to_pressure : ℚ → ℚ → ℚ

/-- The mutable attributes of a `CalibratorModel` instance that the
claims touch. -/
structure CalibState where
  flag_run : Bool
  online_measurements : Bool
  flag_action_from_drl : Bool
  first_day_gl : ℚ
  season_length_gl : ℚ
  season_length_nn : Nat
  max_steps : Nat
  current_step : Nat
  ventilation_list : List ℚ
  toplights_list : List ℚ
  heater_list : List ℚ
  rewards_list : List ℚ
  time_excel : List ℚ
  global_out_excel : List ℚ
  global_in_excel : List ℚ
  temp_in_excel : List ℚ
  temp_out_excel : List ℚ
  rh_in_excel : List ℚ
  rh_out_excel : List ℚ
  co2_in_excel : List ℚ
  co2_out_excel : List ℚ
  toplights : List ℚ
  ventilation : List ℚ
  heater : List ℚ
  par_in_predicted_nn : List ℚ
  temp_in_predicted_nn : List ℚ
  rh_in_predicted_nn : List ℚ
  co2_in_predicted_nn : List ℚ
  time_gl : List ℚ
  co2_in_predicted_gl : List ℚ
  temp_in_predicted_gl : List ℚ
  rh_in_predicted_gl : List ℚ
  PAR_in_predicted_gl : List ℚ
  fruit_leaf_predicted_gl : List ℚ
  fruit_stem_predicted_gl : List ℚ
  fruit_dw_predicted_gl : List ℚ
  fruit_cbuf_predicted_gl : List ℚ
  fruit_tcansum_predicted_gl : List ℚ
deriving DecidableEq, Inhabited

/-- Errors a `step` call can surface: Python `None[0]` (`TypeError`) and
out-of-range list indexing (`IndexError`) on the action vector. -/
inductive StepErr where
  | noneAction
  | indexError
deriving DecidableEq, Inhabited

/-- Python slice `l[-n:]`. -/
def lastN (n : Nat) (l : List ℚ) : List ℚ := l.drop (l.length - n)

/-- Python `l[-1]` (with a default for the empty list, unreachable in the
states the theorems use). -/
def lastVal (l : List ℚ) : ℚ := l.getLastD 0

/-- Python `l[-2]`. -/
def penultVal (l : List ℚ) : ℚ := l.dropLast.getLastD 0

/-- `np.linspace a b n`. -/
def linspace (a b : ℚ) (n : Nat) : List ℚ :=
  (List.range n).map fun i => a + (b - a) * i / ((n : ℚ) - 1)

/-- The action thresholding `1 if x >= 0.5 else 0` used in both
`load_excel_data` and `step`. -/
def thresh (x : ℚ) : ℚ := if 1/2 ≤ x then 1 else 0

/-- `observation()`: the 9-element vector of most recent GreenLight
(authoritative) buffer values, in the order of the source. -/
def observation (s : CalibState) : List ℚ :=
  [lastVal s.co2_in_predicted_gl,
   lastVal s.temp_in_predicted_gl,
   lastVal s.rh_in_predicted_gl,
   lastVal s.PAR_in_predicted_gl,
   lastVal s.fruit_leaf_predicted_gl,
   lastVal s.fruit_stem_predicted_gl,
   lastVal s.fruit_dw_predicted_gl,
   lastVal s.fruit_cbuf_predicted_gl,
   lastVal s.fruit_tcansum_predicted_gl]

/-- `get_reward(_ventilation, _toplights, _heater)`: zero at
`current_step == 0`, otherwise the weighted fruit-dry-weight delta minus
the weighted control costs, with the hard-coded weights of the source. -/
def get_reward (s : CalibState) (v t h : ℚ) : ℚ :=
  let w_r_y1 : ℚ := 1
  let w_r_a1 : ℚ := 0.005
  let w_r_a2 : ℚ := 0.015
  let w_r_a3 : ℚ := 0.001
  if s.current_step = 0 then 0
  else
    let delta_fruit_dw :=
      lastVal s.fruit_dw_predicted_gl - penultVal s.fruit_dw_predicted_gl
    w_r_y1 * delta_fruit_dw - (w_r_a1 * v + w_r_a2 * t + w_r_a3 * h)

/-- The boolean `done()` returns: both branches of the source return
`True` exactly when `current_step >= max_steps` (the `flag_run` flag only
selects the side effects). -/
def doneFlag (s : CalibState) : Bool := s.max_steps ≤ s.current_step

/-- File-system side effects of a `done()` call. -/
inductive Effect where
  | exportData (file : String)
  | removeFile (name : String)
deriving DecidableEq, Inhabited

/-- Side effects of one `done()` call: when `flag_run` and the step bound
is reached, `print_and_save_all_data` exports the history and
`delete_files` removes the exchange files — on every such call, the
source has no first-transition latch. -/
def doneEffects (s : CalibState) : List Effect :=
  if s.flag_run then
    if s.max_steps ≤ s.current_step then
      [Effect.exportData
        (if s.online_measurements then "output/output_simulated_data_online.xlsx"
         else "output/output_simulated_data_offline.xlsx"),
       Effect.removeFile "controls.mat",
       Effect.removeFile "drl-env.mat",
       Effect.removeFile "indoor.mat",
       Effect.removeFile "fruit.mat"] ++
      (if s.online_measurements then [Effect.removeFile "outdoor.mat"] else [])
    else []
  else []

/-- One `done()` call: the returned boolean together with the effects it
performs; the Python object state is not modified by `done`. -/
def doneCall (s : CalibState) : Bool × List Effect := (doneFlag s, doneEffects s)

/-- A sequence of `n` consecutive `done()` calls on the same (unmodified)
instance, recording what each call returns and performs. -/
def doneTrace (s : CalibState) : Nat → List (Bool × List Effect)
  | 0 => []
  | n + 1 => doneCall s :: doneTrace s n

/-- `reset(seed?, options?)`: zero the epoch counter, advance the
spreadsheet cursor by 4 rows, return `(observation, {})`. -/
def reset (s : CalibState) : CalibState × List ℚ × Unit :=
  let s' := { s with current_step := 0, season_length_nn := s.season_length_nn + 4 }
  (s', observation s', ())

/-- The DRL branch of `load_excel_data`: index the action at 0, 1, 2
(Python raises `IndexError` when too short), threshold each component and
overwrite the control columns of the 4 sliced rows with the broadcast
binary value. -/
def drlControlRows (a : List ℚ) (rows : List Row) : Except StepErr (List Row) :=
  match a.get? 0, a.get? 1, a.get? 2 with
  | some a0, some a1, some a2 =>
      .ok (rows.map fun r =>
        { r with ventilation := thresh a0, toplights := thresh a1, heater := thresh a2 })
  | _, _, _ => .error .indexError

/-- The 4-row spreadsheet window
`self.mgh_data.iloc[season_length_nn : season_length_nn + 4]`. -/
def sliceRows (env : Env) (s : CalibState) : List Row :=
  (List.range 4).map fun i => env.dataset (s.season_length_nn + i)

/-- The buffer appends of `load_excel_data`: measurement columns come
from the raw sliced rows, control columns from the (possibly DRL
overridden) `step_data`. -/
def appendExcel (s : CalibState) (rows step_data : List Row) : CalibState :=
  { s with
    time_excel := s.time_excel ++ rows.map Row.time,
    global_out_excel := s.global_out_excel ++ rows.map Row.global_out,
    global_in_excel := s.global_in_excel ++ rows.map Row.global_in,
    temp_in_excel := s.temp_in_excel ++ rows.map Row.temp_in,
    temp_out_excel := s.temp_out_excel ++ rows.map Row.temp_out,
    rh_in_excel := s.rh_in_excel ++ rows.map Row.rh_in,
    rh_out_excel := s.rh_out_excel ++ rows.map Row.rh_out,
    co2_in_excel := s.co2_in_excel ++ rows.map Row.co2_in,
    co2_out_excel := s.co2_out_excel ++ rows.map Row.co2_out,
    toplights := s.toplights ++ step_data.map Row.toplights,
    ventilation := s.ventilation ++ step_data.map Row.ventilation,
    heater := s.heater ++ step_data.map Row.heater }

/-- `load_excel_data(_action_drl)`: slice 4 rows at the `season_length_nn`
cursor, override the control columns only when
`flag_action_from_drl == True and _action_drl != None`, and append the
measurement columns (from the raw rows) and control columns (from the
possibly overridden `step_data`) to the instance buffers.  Returns the
new state together with `self.step_data`. -/
def load_excel_data (env : Env) (s : CalibState) (a : Option (List ℚ)) :
    Except StepErr (CalibState × List Row) :=
  match s.flag_action_from_drl, a with
  | true, some l =>
    match drlControlRows l (sliceRows env s) with
    | .error e => .error e
    | .ok step_data => .ok (appendExcel s (sliceRows env s) step_data, step_data)
  | _, _ => .ok (appendExcel s (sliceRows env s) (sliceRows env s), sliceRows env s)

/-- The buffer appends of `predicted_inside_measurements_nn`: one Keras
prediction per `step_data` row, per target variable. -/
def appendNn (env : Env) (s : CalibState) (step_data : List Row) : CalibState :=
  { s with
    par_in_predicted_nn := s.par_in_predicted_nn ++ step_data.map env.nnGlobalIn,
    temp_in_predicted_nn := s.temp_in_predicted_nn ++ step_data.map env.nnTempIn,
    rh_in_predicted_nn := s.rh_in_predicted_nn ++ step_data.map env.nnRhIn,
    co2_in_predicted_nn := s.co2_in_predicted_nn ++ step_data.map env.nnCo2In }

/-- `predicted_inside_measurements_nn(_action_drl)`: load the spreadsheet
window, then append the four per-target predictions over `step_data`. -/
def predicted_inside_measurements_nn (env : Env) (s : CalibState)
    (a : Option (List ℚ)) : Except StepErr CalibState :=
  match load_excel_data env s a with
  | .error e => .error e
  | .ok (s1, step_data) => .ok (appendNn env s1 step_data)

/-- `predicted_inside_measurements_gl()`: append the last 4 entries of
each `drl-env.mat` array to the GreenLight (authoritative) buffers. -/
def predicted_inside_measurements_gl (s : CalibState) (b : GlBatch) : CalibState :=
  { s with
    time_gl := s.time_gl ++ lastN 4 b.time,
    co2_in_predicted_gl := s.co2_in_predicted_gl ++ lastN 4 b.co2_in,
    temp_in_predicted_gl := s.temp_in_predicted_gl ++ lastN 4 b.temp_in,
    rh_in_predicted_gl := s.rh_in_predicted_gl ++ lastN 4 b.rh_in,
    PAR_in_predicted_gl := s.PAR_in_predicted_gl ++ lastN 4 b.PAR_in,
    fruit_leaf_predicted_gl := s.fruit_leaf_predicted_gl ++ lastN 4 b.fruit_leaf,
    fruit_stem_predicted_gl := s.fruit_stem_predicted_gl ++ lastN 4 b.fruit_stem,
    fruit_dw_predicted_gl := s.fruit_dw_predicted_gl ++ lastN 4 b.fruit_dw,
    fruit_cbuf_predicted_gl := s.fruit_cbuf_predicted_gl ++ lastN 4 b.fruit_cbuf,
    fruit_tcansum_predicted_gl := s.fruit_tcansum_predicted_gl ++ lastN 4 b.fruit_tcansum }

/-- The control-building branch of `step`: thresholding and 4-fold
broadcast of the DRL action (`None` raises `TypeError`, a short vector
`IndexError`), or the last 4 dataset control values otherwise. -/
def buildControls (flag : Bool) (a : Option (List ℚ))
    (fallback : List ℚ × List ℚ × List ℚ) :
    Except StepErr (List ℚ × List ℚ × List ℚ) :=
  if flag then
    match a with
    | none => .error .noneAction
    | some l =>
      match l.get? 0, l.get? 1, l.get? 2 with
      | some a0, some a1, some a2 =>
          .ok (List.replicate 4 (thresh a0), List.replicate 4 (thresh a1),
               List.replicate 4 (thresh a2))
      | _, _, _ => .error .indexError
  else .ok fallback

/-- What a successful `step` call returns, together with the final
instance state and the exchange record handed to the simulator. -/
structure StepResult where
  state : CalibState
  obs : List ℚ
  reward : ℚ
  terminated : Bool
  truncated : Bool
  sent : GlInput
deriving DecidableEq, Inhabited

/-- The error-free tail of `step` once the controls for the epoch are
fixed: append to the control-action lists, bump the season/day scalars
and the spreadsheet cursor, build and send the exchange records, append
the simulator's batch, compute and record the reward, and return. -/
def stepFinish (env : Env) (s2 : CalibState)
    (vent top heat : List ℚ) : StepResult :=
  let time_steps := linspace 300 1200 4
  let s3 := { s2 with
    ventilation_list := s2.ventilation_list ++ lastN 4 vent,
    toplights_list := s2.toplights_list ++ lastN 4 top,
    heater_list := s2.heater_list ++ lastN 4 heat }
  let s4 := { s3 with
    season_length_gl := (1 : ℚ) / 72,
    first_day_gl := s3.first_day_gl + 1 / 72,
    season_length_nn := s3.season_length_nn + 4 }
  let co2_density_gl := List.zipWith env.co2ppm_to_dens
    (lastN 4 s4.temp_in_predicted_gl) (lastN 4 s4.co2_in_predicted_gl)
  let vapor_density_gl := List.zipWith env.rh_to_vapor_density
    (lastN 4 s4.temp_in_predicted_gl) (lastN 4 s4.rh_in_predicted_gl)
  let vapor_pressure_gl := List.zipWith env.vapor_density_to_pressure
    (lastN 4 s4.temp_in_predicted_gl) vapor_density_gl
  let sent : GlInput := {
    season_length_gl := s4.season_length_gl,
    first_day_gl := s4.first_day_gl,
    control_time := time_steps,
    control_ventilation := vent,
    control_toplights := top,
    control_heater := heat,
    indoor_time := lastN 3 s4.time_gl,
    indoor_temp := lastN 3 s4.temp_in_predicted_gl,
    indoor_rh := lastN 3 vapor_pressure_gl,
    indoor_co2 := lastN 3 co2_density_gl,
    fruit_time := lastN 1 s4.time_gl,
    fruit_leaf := lastN 1 s4.fruit_leaf_predicted_gl,
    fruit_stem := lastN 1 s4.fruit_stem_predicted_gl,
    fruit_dw := lastN 1 s4.fruit_dw_predicted_gl,
    fruit_cbuf := lastN 1 s4.fruit_cbuf_predicted_gl,
    fruit_tcansum := lastN 1 s4.fruit_tcansum_predicted_gl }
  let s5 := predicted_inside_measurements_gl s4 (env.glSim sent)
  let reward := get_reward s5 (vent.headD 0) (top.headD 0) (heat.headD 0)
  let s6 := { s5 with rewards_list := s5.rewards_list ++ List.replicate 4 reward }
  { state := s6, obs := observation s6, reward := reward,
    terminated := doneFlag s6, truncated := false, sent := sent }

/-- `step(_action_drl)`: increment the epoch counter, run the NN path
(which also advances the history buffers), build the epoch's controls,
then the error-free tail. -/
def stepCall (env : Env) (s0 : CalibState) (a : Option (List ℚ)) :
    Except StepErr StepResult :=
  match predicted_inside_measurements_nn env
      { s0 with current_step := s0.current_step + 1 } a with
  | .error e => .error e
  | .ok s2 =>
    match buildControls s2.flag_action_from_drl a
        (lastN 4 s2.ventilation, lastN 4 s2.toplights, lastN 4 s2.heater) with
    | .error e => .error e
    | .ok (vent, top, heat) => .ok (stepFinish env s2 vent top heat)

/-- The `env_config` entries `__init__` reads (with their defaults). -/
structure EnvConfig where
  flag_run : Bool := true
  online_measurements : Bool := false
  flag_action_from_drl : Bool := false
  first_day : ℚ := 1
  season_length_gl : ℚ := 1 / 72
  season_length_nn : Nat := 0
  max_steps : Nat := 4
deriving DecidableEq, Inhabited

/-- The fresh instance state at the top of `__init__`: flags and scalars
from `env_config`, empty buffers, and the 4 initial zero rewards recorded
by `self.rewards_list.extend([reward] * 4)`. -/
def initBase (cfg : EnvConfig) : CalibState :=
  { flag_run := cfg.flag_run,
    online_measurements := cfg.online_measurements,
    flag_action_from_drl := cfg.flag_action_from_drl,
    first_day_gl := cfg.first_day,
    season_length_gl := cfg.season_length_gl,
    season_length_nn := cfg.season_length_nn,
    max_steps := cfg.max_steps,
    current_step := 0,
    ventilation_list := [], toplights_list := [], heater_list := [],
    rewards_list := List.replicate 4 0,
    time_excel := [], global_out_excel := [], global_in_excel := [],
    temp_in_excel := [], temp_out_excel := [], rh_in_excel := [],
    rh_out_excel := [], co2_in_excel := [], co2_out_excel := [],
    toplights := [], ventilation := [], heater := [],
    par_in_predicted_nn := [], temp_in_predicted_nn := [],
    rh_in_predicted_nn := [], co2_in_predicted_nn := [],
    time_gl := [], co2_in_predicted_gl := [], temp_in_predicted_gl := [],
    rh_in_predicted_gl := [], PAR_in_predicted_gl := [],
    fruit_leaf_predicted_gl := [], fruit_stem_predicted_gl := [],
    fruit_dw_predicted_gl := [], fruit_cbuf_predicted_gl := [] ,
    fruit_tcansum_predicted_gl := [] }

/-- `init_controls()`: the 4 zero values of each all-zero control array
appended to the control-action lists. -/
def init_controls_state (cfg : EnvConfig) : CalibState :=
  { initBase cfg with
    ventilation_list := (initBase cfg).ventilation_list ++ List.replicate 4 0,
    toplights_list := (initBase cfg).toplights_list ++ List.replicate 4 0,
    heater_list := (initBase cfg).heater_list ++ List.replicate 4 0 }

/-- The exchange record of the initial GreenLight run: the all-zero
`controls.mat` written by `init_controls` and empty `indoor`/`fruit`
files. -/
def initSent (cfg : EnvConfig) : GlInput :=
  { season_length_gl := cfg.season_length_gl,
    first_day_gl := cfg.first_day,
    control_time := linspace 300 1200 4,
    control_ventilation := List.replicate 4 0,
    control_toplights := List.replicate 4 0,
    control_heater := List.replicate 4 0,
    indoor_time := [], indoor_temp := [], indoor_rh := [], indoor_co2 := [],
    fruit_time := [], fruit_leaf := [], fruit_stem := [],
    fruit_dw := [], fruit_cbuf := [], fruit_tcansum := [] }

/-- `__init__(env_config)` (with the MATLAB script present, the normal
path): empty buffers, 4 initial zero rewards, `init_controls`, the
initial GreenLight run, the initial NN pass with action `None`, and the
trailing `reset()`.  Returns the state and the observation that `reset`
produced. -/
def initState (env : Env) (cfg : EnvConfig) : Except StepErr (CalibState × List ℚ) :=
  match predicted_inside_measurements_nn env
      (predicted_inside_measurements_gl (init_controls_state cfg)
        (env.glSim (initSent cfg))) none with
  | .error e => .error e
  | .ok s3 => .ok ((reset s3).1, (reset s3).2.1)

/-- `n` consecutive `step` calls with a fixed action, threading the
state. -/
def stepN (env : Env) (a : Option (List ℚ)) : Nat → CalibState →
    Except StepErr CalibState
  | 0, s => .ok s
  | n + 1, s =>
    match stepCall env s a with
    | .error e => .error e
    | .ok r => stepN env a n r.state

/-! Concrete instances used by the witnesses and counterexamples. -/

/-- A spreadsheet row with all columns zero. -/
def zeroRow : Row :=
  { time := 0, global_out := 0, global_in := 0, temp_in := 0, temp_out := 0,
    rh_in := 0, rh_out := 0, co2_in := 0, co2_out := 0, toplights := 0,
    ventilation := 0, heater := 0 }

/-- A GreenLight result whose arrays are four zeros each. -/
def zeroBatch : GlBatch :=
  { time := [0, 0, 0, 0], co2_in := [0, 0, 0, 0], temp_in := [0, 0, 0, 0],
    rh_in := [0, 0, 0, 0], PAR_in := [0, 0, 0, 0], fruit_leaf := [0, 0, 0, 0],
    fruit_stem := [0, 0, 0, 0], fruit_dw := [0, 0, 0, 0],
    fruit_cbuf := [0, 0, 0, 0], fruit_tcansum := [0, 0, 0, 0] }

/-- A concrete environment: a constant dataset, a simulator that always
returns `zeroBatch`, zero predictions and zero conversions. -/
def exEnv : Env :=
  { dataset := fun _ => zeroRow, glSim := fun _ => zeroBatch,
    nnGlobalIn := fun _ => 0, nnTempIn := fun _ => 0, nnRhIn := fun _ => 0,
    nnCo2In := fun _ => 0, co2ppm_to_dens := fun _ _ => 0,
    rh_to_vapor_density := fun _ _ => 0, vapor_density_to_pressure := fun _ _ => 0 }

/-- Conjunction of `4 * m`-length facts over one representative buffer of
each data source: the reward list, the authoritative (GreenLight)
fruit-dry-weight buffer, the predicted (NN) CO2 buffer and the actual
(spreadsheet) CO2 buffer. -/
def lens4 (s : CalibState) (m : Nat) : Prop :=
  s.rewards_list.length = 4 * m ∧
  s.fruit_dw_predicted_gl.length = 4 * m ∧
  s.co2_in_predicted_nn.length = 4 * m ∧
  s.co2_in_excel.length = 4 * m

/-- The state `__init__` produces under `exEnv` with the default config. -/
def initEx : CalibState :=
  match initState exEnv {} with
  | .ok (s, _) => s
  | .error _ => default

/-- The observation `__init__` (through its trailing `reset`) returns
under `exEnv` with the default config. -/
def initObsEx : List ℚ :=
  match initState exEnv {} with
  | .ok (_, o) => o
  | .error _ => []

/-- The state after `reset()` followed by 4 `step(None)` calls from
`initEx`. -/
def run4Ex : CalibState :=
  match stepN exEnv none 4 (reset initEx).1 with
  | .ok s => s
  | .error _ => default

/-- A config selecting agent-driven (DRL) mode. -/
def drlCfg : EnvConfig := { flag_action_from_drl := true }

/-- The state `__init__` produces under `exEnv` in agent-driven mode. -/
def drlInitEx : CalibState :=
  match initState exEnv drlCfg with
  | .ok (s, _) => s
  | .error _ => default

/-- The result of `step([0.4, 0.6, 1.0])` from `drlInitEx`. -/
def c2Res : StepResult :=
  match stepCall exEnv drlInitEx (some [0.4, 0.6, 1]) with
  | .ok r => r
  | .error _ => default

/-- `initEx` with the epoch counter moved past `max_steps`. -/
def c5State : CalibState := { initEx with current_step := 7 }

/-- The result of `step(None)` from `c5State`. -/
def c5Res : StepResult :=
  match stepCall exEnv c5State none with
  | .ok r => r
  | .error _ => default

/-- A state at epoch 1 whose authoritative fruit-dry-weight buffer ends
in the samples 2 and 5. -/
def rewardExState : CalibState :=
  { (default : CalibState) with current_step := 1, fruit_dw_predicted_gl := [2, 5] }

/-- A terminal run-mode state: `current_step = max_steps = 4`. -/
def termState : CalibState :=
  { (default : CalibState) with flag_run := true, max_steps := 4, current_step := 4 }

/-! Helper lemmas shared by the claim theorems. -/

lemma lastN_length_of_le {n : Nat} {l : List ℚ} (h : n ≤ l.length) :
    (lastN n l).length = n := by
  simp only [lastN, List.length_drop]
  omega

lemma map_const_replicate {α β : Type} (l : List α) (c : β) :
    l.map (fun _ => c) = List.replicate l.length c := by
  induction l with
  | nil => rfl
  | cons a t ih => simp [ih, List.replicate_succ]

lemma sliceRows_length (env : Env) (s : CalibState) : (sliceRows env s).length = 4 := by
  simp [sliceRows]

lemma drlControlRows_ok {l : List ℚ} {rows sd : List Row}
    (h : drlControlRows l rows = .ok sd) : sd.length = rows.length := by
  unfold drlControlRows at h
  split at h
  · cases h
    simp
  · cases h

lemma load_excel_data_ok {env : Env} {s : CalibState} {a : Option (List ℚ)}
    {s' : CalibState} {rows : List Row}
    (h : load_excel_data env s a = .ok (s', rows)) :
    s' = appendExcel s (sliceRows env s) rows ∧ rows.length = 4 := by
  unfold load_excel_data at h
  split at h
  · split at h
    · cases h
    · next step_data heq =>
      cases h
      exact ⟨rfl, by rw [drlControlRows_ok heq, sliceRows_length]⟩
  · cases h
    exact ⟨rfl, sliceRows_length env s⟩

lemma predicted_nn_ok {env : Env} {s : CalibState} {a : Option (List ℚ)}
    {s2 : CalibState} (h : predicted_inside_measurements_nn env s a = .ok s2) :
    ∃ rows, rows.length = 4 ∧
      s2 = appendNn env (appendExcel s (sliceRows env s) rows) rows := by
  unfold predicted_inside_measurements_nn at h
  split at h
  · cases h
  · next s1 rows heq =>
    cases h
    obtain ⟨h1, h2⟩ := load_excel_data_ok heq
    exact ⟨rows, h2, by rw [h1]⟩

lemma stepCall_ok {env : Env} {s : CalibState} {a : Option (List ℚ)}
    {r : StepResult} (h : stepCall env s a = .ok r) :
    ∃ s2 vent top heat,
      predicted_inside_measurements_nn env
        { s with current_step := s.current_step + 1 } a = .ok s2 ∧
      buildControls s2.flag_action_from_drl a
        (lastN 4 s2.ventilation, lastN 4 s2.toplights, lastN 4 s2.heater)
        = .ok (vent, top, heat) ∧
      r = stepFinish env s2 vent top heat := by
  unfold stepCall at h
  split at h
  · cases h
  · next s2 heq =>
    split at h
    · cases h
    · next vent top heat heq2 =>
      cases h
      exact ⟨s2, vent, top, heat, heq, heq2, rfl⟩

lemma map_override_ventilation (x y z : ℚ) (rows : List Row) :
    (rows.map (fun row => { row with
      ventilation := thresh x, toplights := thresh y, heater := thresh z })).map
      Row.ventilation
    = List.replicate rows.length (thresh x) := by
  induction rows with
  | nil => rfl
  | cons r tl ih => simp [ih, List.replicate_succ]

lemma stepCall_lens {env : Env} {s : CalibState} {a : Option (List ℚ)}
    {r : StepResult} {m : Nat}
    (hgl : ∀ inp, 4 ≤ ((env.glSim inp).fruit_dw).length)
    (h : stepCall env s a = .ok r) (hm : lens4 s m) : lens4 r.state (m + 1) := by
  obtain ⟨s2, vent, top, heat, hnn, hbc, hr⟩ := stepCall_ok h
  obtain ⟨rows, hlen, hs2⟩ := predicted_nn_ok hnn
  subst hr
  subst hs2
  obtain ⟨h1, h2, h3, h4⟩ := hm
  refine ⟨?_, ?_, ?_, ?_⟩ <;>
    simp [stepFinish, predicted_inside_measurements_gl, appendNn, appendExcel,
      lastN_length_of_le (hgl _), hlen, sliceRows, h1, h2, h3, h4] <;>
    omega

lemma initState_lens {env : Env} {cfg : EnvConfig} {s : CalibState}
    {obs : List ℚ} (hgl : ∀ inp, 4 ≤ ((env.glSim inp).fruit_dw).length)
    (h : initState env cfg = .ok (s, obs)) : lens4 s 1 := by
  unfold initState at h
  split at h
  · cases h
  · next s3 heq =>
    cases h
    obtain ⟨rows, hlen, hs3⟩ := predicted_nn_ok heq
    subst hs3
    refine ⟨?_, ?_, ?_, ?_⟩ <;>
      simp [reset, appendNn, appendExcel, predicted_inside_measurements_gl,
        init_controls_state, initBase, lastN_length_of_le (hgl _), hlen,
        sliceRows]

lemma stepN_lens {env : Env} {a : Option (List ℚ)}
    (hgl : ∀ inp, 4 ≤ ((env.glSim inp).fruit_dw).length) :
    ∀ (k m : Nat) (s s' : CalibState),
      stepN env a k s = .ok s' → lens4 s m → lens4 s' (m + k) := by
  intro k
  induction k with
  | zero =>
    intro m s s' h hm
    cases h
    simpa using hm
  | succ k ih =>
    intro m s s' h hm
    unfold stepN at h
    split at h
    · cases h
    · next r hst =>
      have hr := stepCall_lens hgl hst hm
      have heq : m + (k + 1) = (m + 1) + k := by omega
      rw [heq]
      exact ih (m + 1) r.state s' h hr

lemma linspace_four : linspace 300 1200 4 = [300, 600, 900, 1200] := by
  norm_num [linspace, List.range_succ]

lemma stepCall_drl_ok (env : Env) (s : CalibState) (x y z : ℚ)
    (hflag : s.flag_action_from_drl = true) :
    stepCall env s (some [x, y, z]) =
      .ok (stepFinish env
        (appendNn env
          (appendExcel { s with current_step := s.current_step + 1 }
            (sliceRows env { s with current_step := s.current_step + 1 })
            ((sliceRows env { s with current_step := s.current_step + 1 }).map
              fun row => { row with
                ventilation := thresh x, toplights := thresh y, heater := thresh z }))
          ((sliceRows env { s with current_step := s.current_step + 1 }).map
            fun row => { row with
              ventilation := thresh x, toplights := thresh y, heater := thresh z }))
        (List.replicate 4 (thresh x)) (List.replicate 4 (thresh y))
        (List.replicate 4 (thresh z))) := by
  simp only [stepCall, predicted_inside_measurements_nn, load_excel_data,
    drlControlRows, buildControls, appendNn, appendExcel, List.get?, hflag,
    if_true]

/-! Theorems for the claims. -/

/-- C1: `get_reward(ventilation, toplights, heater)` returns `0.0` at
epoch 0 and, for every epoch `k > 0`, returns
`1 * (fruit_dw[-1] - fruit_dw[-2]) -
 (0.005 * ventilation + 0.015 * toplights + 0.001 * heater)` over the two
most recent authoritative fruit-dry-weight samples. -/
theorem get_reward_spec (s : CalibState) (v t h : ℚ) :
    (s.current_step = 0 → get_reward s v t h = 0) ∧
    (0 < s.current_step →
      get_reward s v t h =
        1 * (lastVal s.fruit_dw_predicted_gl - penultVal s.fruit_dw_predicted_gl)
          - (0.005 * v + 0.015 * t + 0.001 * h)) := by
  constructor
  · intro h0
    simp [get_reward, h0]
  · intro hpos
    have hne : s.current_step ≠ 0 := Nat.pos_iff_ne_zero.mp hpos
    simp [get_reward, hne]

/-- Witness for C1: a state at epoch 1 with fruit-dry-weight samples
`[2, 5]` and controls `(1, 0, 0)` yields reward `1 * 3 - 0.005`. -/
theorem get_reward_spec_witness :
    get_reward rewardExState 1 0 0 =
      1 * (lastVal rewardExState.fruit_dw_predicted_gl
            - penultVal rewardExState.fruit_dw_predicted_gl)
        - (0.005 * 1 + 0.015 * 0 + 0.001 * 0) :=
  (get_reward_spec rewardExState 1 0 0).2 (by decide)

/-- C3: `observation()` always returns exactly 9 elements, in the fixed
order CO2, temperature, humidity, PAR, leaf carbohydrate, stem
carbohydrate, fruit dry weight, buffer carbohydrate, thermal-time sum,
each being the most recent value of the corresponding authoritative
(GreenLight) buffer; every component is a rational number, hence
finite. -/
theorem observation_spec (s : CalibState) :
    (observation s).length = 9 ∧
    (observation s).get? 0 = some (lastVal s.co2_in_predicted_gl) ∧
    (observation s).get? 1 = some (lastVal s.temp_in_predicted_gl) ∧
    (observation s).get? 2 = some (lastVal s.rh_in_predicted_gl) ∧
    (observation s).get? 3 = some (lastVal s.PAR_in_predicted_gl) ∧
    (observation s).get? 4 = some (lastVal s.fruit_leaf_predicted_gl) ∧
    (observation s).get? 5 = some (lastVal s.fruit_stem_predicted_gl) ∧
    (observation s).get? 6 = some (lastVal s.fruit_dw_predicted_gl) ∧
    (observation s).get? 7 = some (lastVal s.fruit_cbuf_predicted_gl) ∧
    (observation s).get? 8 = some (lastVal s.fruit_tcansum_predicted_gl) :=
  ⟨rfl, rfl, rfl, rfl, rfl, rfl, rfl, rfl, rfl, rfl⟩

/-- C6: every `reset()` call zeroes the epoch counter, advances the
spreadsheet read cursor by exactly 4 rows, and returns the pair of the
current observation and the empty info dict. -/
theorem reset_spec (s : CalibState) :
    (reset s).1.current_step = 0 ∧
    (reset s).1.season_length_nn = s.season_length_nn + 4 ∧
    (reset s).2 = (observation (reset s).1, ()) :=
  ⟨rfl, rfl, rfl⟩

/-- C9: `reset()` is frame-limited: the new state is exactly the old one
with the epoch counter zeroed and the dataset cursor advanced by 4, so
every history buffer, the reward list and the control-action lists
persist unchanged across a reset. -/
theorem reset_frame (s : CalibState) :
    (reset s).1
      = { s with current_step := 0, season_length_nn := s.season_length_nn + 4 } ∧
    (reset s).1.rewards_list = s.rewards_list ∧
    (reset s).1.ventilation_list = s.ventilation_list ∧
    (reset s).1.toplights_list = s.toplights_list ∧
    (reset s).1.heater_list = s.heater_list ∧
    (reset s).1.fruit_dw_predicted_gl = s.fruit_dw_predicted_gl ∧
    (reset s).1.co2_in_predicted_gl = s.co2_in_predicted_gl ∧
    (reset s).1.co2_in_predicted_nn = s.co2_in_predicted_nn ∧
    (reset s).1.co2_in_excel = s.co2_in_excel :=
  ⟨rfl, rfl, rfl, rfl, rfl, rfl, rfl, rfl, rfl⟩

/-- C5: `done()` returns true iff `current_step >= max_steps`; every
successful `step` call increments the epoch counter by exactly 1, and
once `done()` holds it keeps holding after further steps (it never flips
back to false within an episode). -/
theorem done_step_spec (env : Env) (s : CalibState) (a : Option (List ℚ))
    (r : StepResult) (hok : stepCall env s a = .ok r) :
    (doneFlag s = true ↔ s.max_steps ≤ s.current_step) ∧
    r.state.current_step = s.current_step + 1 ∧
    (doneFlag s = true → doneFlag r.state = true) := by
  obtain ⟨s2, vent, top, heat, hnn, hbc, hr⟩ := stepCall_ok hok
  obtain ⟨rows, hlen, hs2⟩ := predicted_nn_ok hnn
  subst hr
  subst hs2
  have hcur : (stepFinish env
      (appendNn env (appendExcel { s with current_step := s.current_step + 1 }
        (sliceRows env { s with current_step := s.current_step + 1 }) rows) rows)
      vent top heat).state.current_step = s.current_step + 1 := rfl
  have hmax : (stepFinish env
      (appendNn env (appendExcel { s with current_step := s.current_step + 1 }
        (sliceRows env { s with current_step := s.current_step + 1 }) rows) rows)
      vent top heat).state.max_steps = s.max_steps := rfl
  refine ⟨by simp [doneFlag], hcur, ?_⟩
  intro hd
  simp only [doneFlag, decide_eq_true_eq] at hd ⊢
  rw [hcur, hmax]
  omega

/-- C10: in dataset-driven mode (`flag_action_from_drl = False`) the
action argument has no influence on `step`: any two actions (including
`None`) from the same state produce identical results — controls, buffer
contents, reward and observation included. -/
theorem step_action_noninterference (env : Env) (s : CalibState)
    (a1 a2 : Option (List ℚ)) (hflag : s.flag_action_from_drl = false) :
    stepCall env s a1 = stepCall env s a2 := by
  have hflag' : ({ s with current_step := s.current_step + 1 } :
      CalibState).flag_action_from_drl = false := hflag
  have hload : ∀ a, load_excel_data env { s with current_step := s.current_step + 1 } a
      = load_excel_data env { s with current_step := s.current_step + 1 } none := by
    intro a
    unfold load_excel_data
    rw [hflag']
  have hnn : ∀ a,
      predicted_inside_measurements_nn env
        { s with current_step := s.current_step + 1 } a
      = predicted_inside_measurements_nn env
        { s with current_step := s.current_step + 1 } none := by
    intro a
    unfold predicted_inside_measurements_nn
    rw [hload a]
  unfold stepCall
  rw [hnn a1, hnn a2]
  rcases hres : predicted_inside_measurements_nn env
      { s with current_step := s.current_step + 1 } none with e | s2
  · rfl
  · obtain ⟨rows, _, hs2⟩ := predicted_nn_ok hres
    have h2 : s2.flag_action_from_drl = false := by rw [hs2]; exact hflag
    simp only [buildControls, h2, if_neg Bool.false_ne_true]

/-- Witness for C10: under the concrete environment and the default
(dataset-driven) configuration, stepping with `None` and stepping with
the action `[1, 0, 0]` from the initial state give identical results. -/
theorem step_action_noninterference_witness :
    stepCall exEnv initEx none = stepCall exEnv initEx (some [1, 0, 0]) :=
  step_action_noninterference exEnv initEx none (some [1, 0, 0]) (by decide)

/-- Witness for C5: from a state at epoch 7 with `max_steps = 4`, one
step reaches epoch 8, `done()` agrees with `current_step >= max_steps`,
and termination persists. -/
theorem done_step_spec_witness :
    (doneFlag c5State = true ↔ c5State.max_steps ≤ c5State.current_step) ∧
    c5Res.state.current_step = c5State.current_step + 1 ∧
    doneFlag c5Res.state = true := by
  have h := done_step_spec exEnv c5State none c5Res rfl
  exact ⟨h.1, h.2.1, h.2.2 (by decide)⟩

/-- C2: in agent-driven mode, `step` thresholds every action component
at 0.5 to a binary 0/1 value, broadcasts it across exactly 4 sub-steps,
and stamps the control vector with the fixed timestamps
`[300, 600, 900, 1200]` seconds; the same thresholded broadcast is also
what `load_excel_data` appends to the control buffer. -/
theorem step_drl_threshold_broadcast (env : Env) (s : CalibState) (x y z : ℚ)
    (r : StepResult) (hflag : s.flag_action_from_drl = true)
    (hok : stepCall env s (some [x, y, z]) = .ok r) :
    r.sent.control_time = [300, 600, 900, 1200] ∧
    r.sent.control_ventilation
      = List.replicate 4 (if 1/2 ≤ x then (1 : ℚ) else 0) ∧
    r.sent.control_toplights
      = List.replicate 4 (if 1/2 ≤ y then (1 : ℚ) else 0) ∧
    r.sent.control_heater
      = List.replicate 4 (if 1/2 ≤ z then (1 : ℚ) else 0) ∧
    r.state.ventilation
      = s.ventilation ++ List.replicate 4 (if 1/2 ≤ x then (1 : ℚ) else 0) := by
  rw [stepCall_drl_ok env s x y z hflag] at hok
  cases hok
  refine ⟨linspace_four, rfl, rfl, rfl, ?_⟩
  show s.ventilation ++
      ((sliceRows env { s with current_step := s.current_step + 1 }).map
        (fun row => { row with
          ventilation := thresh x, toplights := thresh y, heater := thresh z })).map
        Row.ventilation
    = s.ventilation ++ List.replicate 4 (if 1/2 ≤ x then (1 : ℚ) else 0)
  rw [map_override_ventilation, sliceRows_length]
  rfl

/-- Witness for C2: the action `[0.4, 0.6, 1.0]` yields the control
vector `(0, 1, 1)`, each value broadcast over 4 sub-steps, with
timestamps `[300, 600, 900, 1200]`. -/
theorem step_drl_threshold_broadcast_witness :
    c2Res.sent.control_time = [300, 600, 900, 1200] ∧
    c2Res.sent.control_ventilation = List.replicate 4 0 ∧
    c2Res.sent.control_toplights = List.replicate 4 1 ∧
    c2Res.sent.control_heater = List.replicate 4 1 := by
  have h := step_drl_threshold_broadcast exEnv drlInitEx 0.4 0.6 1 c2Res
    (by decide) rfl
  refine ⟨h.1, ?_, ?_, ?_⟩
  · rw [h.2.1, if_neg (by norm_num)]
  · rw [h.2.2.1, if_pos (by norm_num)]
  · rw [h.2.2.2.1, if_pos (by norm_num)]

/-- Counterexample for C4: `__init__` pre-populates one epoch's worth of
entries (4 zero rewards) before any step, so after `reset()` followed by
4 `step()` calls the accumulated reward sequence has length 20, not
16. -/
theorem rewards_after_reset_and_four_steps_not_16 :
    initState exEnv {} = .ok (initEx, initObsEx) ∧
    stepN exEnv none 4 (reset initEx).1 = .ok run4Ex ∧
    run4Ex.rewards_list.length = 20 ∧
    ¬ run4Ex.rewards_list.length = 16 :=
  ⟨rfl, rfl, by decide, by decide⟩

/-- C4 (amended): after `epoch_count` successful steps following
initialization (and a reset), each source's representative buffer and the
reward list have length `4 * (epoch_count + 1)`: initialization already
appends one epoch's worth of entries to every buffer, so after reset plus
4 steps the reward sequence has length 20. -/
theorem buffer_lengths_after_steps (env : Env) (cfg : EnvConfig)
    (a : Option (List ℚ)) (k : Nat) (s s' : CalibState) (obs : List ℚ)
    (hgl : ∀ inp, 4 ≤ ((env.glSim inp).fruit_dw).length)
    (hinit : initState env cfg = .ok (s, obs))
    (hrun : stepN env a k (reset s).1 = .ok s') :
    s'.rewards_list.length = 4 * (k + 1) ∧
    s'.fruit_dw_predicted_gl.length = 4 * (k + 1) ∧
    s'.co2_in_predicted_nn.length = 4 * (k + 1) ∧
    s'.co2_in_excel.length = 4 * (k + 1) := by
  have h1 : lens4 s 1 := initState_lens hgl hinit
  have h2 : lens4 (reset s).1 1 := h1
  have h3 := stepN_lens hgl k 1 (reset s).1 s' hrun h2
  obtain ⟨g1, g2, g3, g4⟩ := h3
  refine ⟨?_, ?_, ?_, ?_⟩ <;> omega

/-- Witness for C4 (amended): under the concrete environment, after
reset and 4 steps every tracked buffer has length `4 * (4 + 1) = 20`. -/
theorem buffer_lengths_after_steps_witness :
    run4Ex.rewards_list.length = 4 * (4 + 1) ∧
    run4Ex.fruit_dw_predicted_gl.length = 4 * (4 + 1) ∧
    run4Ex.co2_in_predicted_nn.length = 4 * (4 + 1) ∧
    run4Ex.co2_in_excel.length = 4 * (4 + 1) :=
  buffer_lengths_after_steps exEnv {} none 4 initEx run4Ex initObsEx
    (fun _ => (by decide : (4 : Nat) ≤ zeroBatch.fruit_dw.length)) rfl rfl

/-- Counterexample for C7: an action far outside `[0, 1]^3` raises no
error at all — `step` completes successfully, so no `InvalidActionError`
is raised before the external calls. -/
theorem step_accepts_invalid_action :
    (stepCall exEnv drlInitEx (some [2, -1, 0.7])).isOk = true := by decide

/-- C7 (amended): `step` performs no validation of the action vector: any
length-3 action, in range or not, is accepted and thresholded like any
other value, while a wrong-arity action surfaces as an index error from
the action access inside the data-loading path, not as a pre-validation
`InvalidActionError`. -/
theorem step_no_action_validation (env : Env) (s : CalibState) (x y z : ℚ)
    (hflag : s.flag_action_from_drl = true) :
    (stepCall env s (some [x, y, z])).isOk = true ∧
    stepCall env s (some [x]) = .error .indexError := by
  constructor
  · rw [stepCall_drl_ok env s x y z hflag]
    rfl
  · simp only [stepCall, predicted_inside_measurements_nn, load_excel_data,
      drlControlRows, List.get?, hflag]

/-- Witness for C7 (amended): the out-of-range action `[3, -2, 9]` is
accepted, and the length-1 action `[3]` fails with an index error. -/
theorem step_no_action_validation_witness :
    (stepCall exEnv drlInitEx (some [(3 : ℚ), -2, 9])).isOk = true ∧
    stepCall exEnv drlInitEx (some [(3 : ℚ)]) = .error .indexError :=
  step_no_action_validation exEnv drlInitEx 3 (-2) 9 (by decide)

/-- Counterexample for C8: there is no first-transition latch — in a
terminal run-mode state, the second consecutive `done()` call still
returns true and still performs the export and the exchange-file
deletions. -/
theorem done_reexports_on_second_call :
    (doneTrace termState 2).get? 1 = some (true, doneEffects termState) ∧
    Effect.exportData "output/output_simulated_data_offline.xlsx"
      ∈ doneEffects termState ∧
    Effect.removeFile "controls.mat" ∈ doneEffects termState := by
  exact ⟨by decide, by decide, by decide⟩

/-- C8 (amended): in run mode, every `done()` call in a terminal state —
not only the first — returns true and performs the history export (and
the file deletions); the source has no once-only latch. -/
theorem done_exports_every_terminal_call (s : CalibState) (n : Nat)
    (hrun : s.flag_run = true) (hterm : s.max_steps ≤ s.current_step) :
    ∀ p ∈ doneTrace s n, p.1 = true ∧ ∃ f, Effect.exportData f ∈ p.2 := by
  induction n with
  | zero =>
    intro p hp
    cases hp
  | succ n ih =>
    intro p hp
    simp only [doneTrace, List.mem_cons] at hp
    rcases hp with h | h
    · subst h
      refine ⟨by simp [doneCall, doneFlag, hterm], ?_⟩
      refine ⟨if s.online_measurements then "output/output_simulated_data_online.xlsx"
        else "output/output_simulated_data_offline.xlsx", ?_⟩
      simp [doneCall, doneEffects, hrun, hterm]
    · exact ih p h

/-- Witness for C8 (amended): in the concrete terminal state, an element
of a two-call `done()` trace returns true and contains an export
effect. -/
theorem done_exports_every_terminal_call_witness :
    (doneCall termState).1 = true ∧
    ∃ f, Effect.exportData f ∈ (doneCall termState).2 :=
  done_exports_every_terminal_call termState 2 (by decide) (by decide)
    (doneCall termState) (by simp [doneTrace])

end Calibrator
